import Mathlib

/-!
Shallow embedding of the satellite-imagery browser application (src/app.py):
the raster crop/reprojection pipeline (`crop_image_to_aoi`, lines 54-72),
the RGB composite construction (lines 745-758), the click/double-click
interaction handling (lines 276-312), the bounding-box area-of-interest
construction and validation (lines 319-328, 347-372, 391-413, 426-441),
the date-range check (lines 96-103), and the band open/close lifecycle of
the RGB generation pass (lines 729-771).

Coordinates, timestamps and pixel values are modelled as rationals; the
pyproj coordinate transformer is an abstract function parameter; numpy
arrays are nested lists; session state is an explicit record threaded
through the handlers.  `st.rerun()` halts the script run immediately
(statements after it in the same pass do not execute), which the click
handler embedding reflects by returning the state accumulated so far.
-/

set_option autoImplicit false

namespace SatApp

/-- One opened raster band (a rasterio dataset): its CRS identifier and its
spatial extent ((xmin, ymin), (xmax, ymax)) expressed in its own CRS. -/
structure RasterBand where
  crs : String
  extent : (ℚ × ℚ) × (ℚ × ℚ)
deriving DecidableEq

/-- Failure of the masking step.  `rasterio.mask.mask` with `crop := true`
raises (ValueError, "Input shapes do not overlap raster") when the
geometry does not overlap the raster extent; this is the only failure the
crop loop can produce, named after the spec's `EmptyCropError`. -/
inductive CropError where
  | emptyCrop
deriving DecidableEq

/-- Result of masking one band with one polygon: the band, the polygon
geometry that was applied to it (in whatever CRS the caller expressed it),
and the crop window (intersection of the polygon bounds with the band
extent), standing for the returned `out_transform`. -/
structure MaskResult where
  band : RasterBand
  poly : List (ℚ × ℚ)
  window : (ℚ × ℚ) × (ℚ × ℚ)
deriving DecidableEq

/-- Source CRS fixed by `crop_image_to_aoi` (app.py line 56): `epsg:4326`. -/
def in_proj : String := "epsg:4326"

/-- Bounding box of a ring of points: ((xmin, ymin), (xmax, ymax)).
An empty ring gets a degenerate box at the origin (never used by the app:
rings always have five points). -/
def ringBounds (ring : List (ℚ × ℚ)) : (ℚ × ℚ) × (ℚ × ℚ) :=
  match ring with
  | [] => ((0, 0), (0, 0))
  | p :: ps =>
    ps.foldl (fun acc q =>
      ((min acc.1.1 q.1, min acc.1.2 q.2), (max acc.2.1 q.1, max acc.2.2 q.2)))
      ((p.1, p.2), (p.1, p.2))

/-- Closed-rectangle intersection test, used to model whether a geometry
overlaps a raster extent. -/
def rectsIntersect (a b : (ℚ × ℚ) × (ℚ × ℚ)) : Bool :=
  decide (a.1.1 ≤ b.2.1 ∧ b.1.1 ≤ a.2.1 ∧ a.1.2 ≤ b.2.2 ∧ b.1.2 ≤ a.2.2)

/-- Crop window of `mask(band, [poly], crop=True)`: the polygon bounds
clipped to the band extent. -/
def cropWindow (band : RasterBand) (poly : List (ℚ × ℚ)) : (ℚ × ℚ) × (ℚ × ℚ) :=
  let pb := ringBounds poly
  ((max band.extent.1.1 pb.1.1, max band.extent.1.2 pb.1.2),
   (min band.extent.2.1 pb.2.1, min band.extent.2.2 pb.2.2))

/-- Model of `rasterio.mask.mask(band_data, [geom], crop=True)` (app.py
line 68): fails when the geometry does not overlap the raster, otherwise
returns the crop, recording which polygon geometry was applied. -/
def maskCrop (band : RasterBand) (poly : List (ℚ × ℚ)) : Except CropError MaskResult :=
  if rectsIntersect band.extent (ringBounds poly) then
    .ok ⟨band, poly, cropWindow band poly⟩
  else
    .error .emptyCrop

/-- The `for band_data in data` loop of `crop_image_to_aoi` (app.py lines
67-70): masks each band in order with the one polygon `poly`, appending
results; a raised error aborts the whole loop (Python exception). -/
def maskAll (poly : List (ℚ × ℚ)) : List RasterBand → Except CropError (List MaskResult)
  | [] => .ok []
  | b :: rest =>
    match maskCrop b poly with
    | .error e => .error e
    | .ok r =>
      match maskAll poly rest with
      | .error e => .error e
      | .ok rs => .ok (r :: rs)

/-- Ring reprojection as `crop_image_to_aoi` performs it (app.py line 60):
`[transformer.transform(lat, lon) for lon, lat in ring]` with a
transformer from `epsg:4326` to `out_crs`.  `tr inCrs outCrs (lat, lon)`
is the abstract pyproj transform. -/
def reprojRing (tr : String → String → ℚ × ℚ → ℚ × ℚ) (out_crs : String)
    (ring : List (ℚ × ℚ)) : List (ℚ × ℚ) :=
  ring.map (fun p => tr in_proj out_crs (p.2, p.1))

/-- Embedding of `crop_image_to_aoi(data, area_of_interest, target_crs)`
(app.py lines 54-72): the AOI ring is reprojected once from `epsg:4326`
into the single `target_crs`, and every band in `data` is masked with that
one reprojected polygon. -/
def crop_image_to_aoi (tr : String → String → ℚ × ℚ → ℚ × ℚ)
    (data : List RasterBand) (area_of_interest : List (ℚ × ℚ)) (target_crs : String) :
    Except CropError (List MaskResult × List ((ℚ × ℚ) × (ℚ × ℚ))) :=
  match maskAll (reprojRing tr target_crs area_of_interest) data with
  | .error e => .error e
  | .ok results => .ok (results, results.map MaskResult.window)

/-- A 2-D pixel grid (one band), row major. -/
abbrev Grid := List (List ℚ)

/-- A 3-D array (rows x cols x channels), row major. -/
abbrev Grid3 := List (List (List ℚ))

/-- Shape of a 2-D grid: (number of rows, length of the first row). -/
def shape2 (g : Grid) : Nat × Nat := (g.length, (g.head?.getD []).length)

/-- Trailing shape (all axes but the first) of a 3-D array given as a list
of 2-D slices. -/
def trailingShape (a : List Grid) : Nat × Nat := shape2 (a.head?.getD [])

/-- Failure of `np.concatenate` when the input arrays disagree on the
non-concatenation dimensions (numpy raises ValueError), named after the
spec's `DimensionMismatchError`. -/
inductive CompositeError where
  | dimensionMismatch
deriving DecidableEq

/-- Model of `np.concatenate(arrays, axis=0)` over 3-D arrays: all inputs
must agree on the trailing (non-concatenation) dimensions, otherwise a
dimension-mismatch error is raised; an empty tuple of arrays also raises. -/
def npConcat0 : List (List Grid) → Except CompositeError (List Grid)
  | [] => .error .dimensionMismatch
  | x :: rest =>
    if rest.all (fun y => decide (trailingShape y = trailingShape x)) then
      .ok ((x :: rest).flatten)
    else
      .error .dimensionMismatch

/-- Model of `np.rollaxis(a, 0, 3)` on a (channels x rows x cols) array:
the result has shape (rows x cols x channels) with
`result[i][j][k] = a[k][i][j]`. -/
def rollaxis03 (a : List Grid) : Grid3 :=
  (List.range (a.head?.getD []).length).map fun i =>
    (List.range ((a.head?.getD []).head?.getD []).length).map fun j =>
      a.map fun ch => ((ch[i]?.getD [])[j]?.getD 0)

/-- The composite construction of the RGB generation block (app.py lines
745-758): stack the single-band crops along a new leading channel axis
with `np.concatenate(..., axis=0)` (each crop has shape (1, H, W)), roll
the channel axis to the back with `np.rollaxis(_, 0, 3)`, divide by the
scale factor (5000 at the call site), and clip to [0, 1]. -/
def buildComposite (croppedBands : List Grid) (scaleFactor : ℚ) :
    Except CompositeError Grid3 :=
  match npConcat0 (croppedBands.map fun g => [g]) with
  | .error e => .error e
  | .ok rgb_image =>
    let rgb_display := rollaxis03 rgb_image
    let rgb_normalized := rgb_display.map fun r => r.map fun c => c.map fun v => v / scaleFactor
    .ok (rgb_normalized.map fun r => r.map fun c => c.map fun v => min 1 (max 0 v))

/-- A grid is rectangular with `r` rows and `c` columns. -/
def isRect (g : Grid) (r c : ℕ) : Prop :=
  g.length = r ∧ ∀ row ∈ g, row.length = c

/-- The subset of `st.session_state` touched by the modelled operations:
the selection point (`selected_lat`, `selected_lon`), the map center
(`map_center_lat`, `map_center_lon`), the click history used for
double-click detection (`last_click_time`, `last_click_pos`), and the
stored area of interest polygon ring (`area_of_interest`). -/
structure SessionState where
  selected_lat : ℚ
  selected_lon : ℚ
  map_center_lat : ℚ
  map_center_lon : ℚ
  last_click_time : ℚ
  last_click_pos : Option (ℚ × ℚ)
  area_of_interest : Option (List (ℚ × ℚ))
deriving DecidableEq

/-- The double-click condition of app.py lines 285-288: the click history
is non-empty, the new click arrived strictly less than 1.0 second after
the recorded click, and both coordinate differences are strictly below
0.01 degrees. -/
def isDoubleClick (s : SessionState) (clicked_lat clicked_lon current_time : ℚ) : Bool :=
  match s.last_click_pos with
  | none => false
  | some p =>
    decide (current_time - s.last_click_time < 1) &&
    decide (|clicked_lat - p.1| < 1/100) &&
    decide (|clicked_lon - p.2| < 1/100)

/-- Classification of a click as a single-click, written from the spec's
words (claim C2): the history is empty, or the timestamp difference is at
least the 1.0-second window, or the per-axis distance strictly exceeds
0.01 degrees on latitude or on longitude. -/
def spec_isSingleClick (s : SessionState) (clicked_lat clicked_lon current_time : ℚ) : Prop :=
  s.last_click_pos = none ∨
  1 ≤ current_time - s.last_click_time ∨
  ∃ p, s.last_click_pos = some p ∧ (1/100 < |clicked_lat - p.1| ∨ 1/100 < |clicked_lon - p.2|)

/-- The map click handler of app.py lines 276-312, as a state transformer.
Double-click branch (lines 290-297): move the map center, reset the click
history (`last_click_time := 0`, `last_click_pos := None`), then
`st.rerun()` halts the pass.  Single-click branch (lines 298-312): if the
click position differs from the current selection point by more than
0.0001 on either axis, update the selection point and the map center and
call `st.rerun()` — which halts the pass, so the history update on lines
311-312 does not execute; only when the position is within that epsilon
does the pass fall through to record the click history. -/
def handleClick (s : SessionState) (clicked_lat clicked_lon current_time : ℚ) : SessionState :=
  if isDoubleClick s clicked_lat clicked_lon current_time then
    { s with map_center_lat := clicked_lat, map_center_lon := clicked_lon,
             last_click_time := 0, last_click_pos := none }
  else
    if 1/10000 < |clicked_lat - s.selected_lat| ∨ 1/10000 < |clicked_lon - s.selected_lon| then
      { s with selected_lat := clicked_lat, selected_lon := clicked_lon,
               map_center_lat := clicked_lat, map_center_lon := clicked_lon }
    else
      { s with last_click_time := current_time,
               last_click_pos := some (clicked_lat, clicked_lon) }

/-- The bounding-box polygon ring literal built at app.py lines 319-328,
363-372 and 401-410: five (lon, lat) vertices, the last repeating the
first. -/
def bboxRing (lat_min lat_max lon_min lon_max : ℚ) : List (ℚ × ℚ) :=
  [(lon_min, lat_min), (lon_max, lat_min), (lon_max, lat_max), (lon_min, lat_max),
   (lon_min, lat_min)]

/-- The sidebar coordinate-input location path (app.py lines 391-413):
builds the bounding-box ring and stores it in session state with no
validation of the min/max ordering. -/
def coordInputPath (s : SessionState) (lat_min lon_min lat_max lon_max : ℚ) : SessionState :=
  { s with area_of_interest := some (bboxRing lat_min lat_max lon_min lon_max) }

/-- The map-tab direct coordinate-entry path (app.py lines 347-389): if
`lat_min >= lat_max` or `lon_min >= lon_max`, an inline error is shown and
the stored area of interest is cleared; otherwise the ring is built into a
local variable and previewed, and the session-state field keeps its prior
value (this branch never assigns `st.session_state.area_of_interest`). -/
def mapDirectInputPath (s : SessionState) (lat_min lon_min lat_max lon_max : ℚ) : SessionState :=
  if lat_min ≥ lat_max ∨ lon_min ≥ lon_max then
    { s with area_of_interest := none }
  else
    s

/-- The search-button gate (app.py lines 426-441): a catalog search is
issued exactly when a stored area of interest exists, and the request's
`intersects` field is that stored polygon. -/
def searchRequest (s : SessionState) : Option (List (ℚ × ℚ)) :=
  s.area_of_interest

/-- The date-range check at the top of `main` (app.py lines 96-103), with
dates as ordinal day numbers.  If the start date is after the end date an
inline error is shown and the pass returns before `time_range` is formed
(no session-state field has been written at that point); otherwise the
pass continues with the datetime range, modelled as its pair of endpoints
(the code renders it as "start/end" in ISO form). -/
def datePass (s : SessionState) (start_date end_date : ℤ) : SessionState × Option (ℤ × ℤ) :=
  if start_date > end_date then
    (s, none)
  else
    (s, some (start_date, end_date))

/-- The RGB generation pass (app.py lines 729-771) restricted to its band
lifecycle: `data = [rasterio.open(...) for url in urls]` opens the bands;
`crs = str(data[0].crs)` takes the first band's CRS; `crop_image_to_aoi`
crops; on success the composite is built and displayed and the cleanup
loop `for d in data: d.close()` (lines 763-765) closes every band; any
exception raised before that loop jumps to the handler on line 770, which
shows an error message — the cleanup loop does not run.  The result is
(bands still open at the end of the pass, whether the error path ran). -/
def generateRGBPass (tr : String → String → ℚ × ℚ → ℚ × ℚ)
    (data : List RasterBand) (aoi : List (ℚ × ℚ)) : List RasterBand × Bool :=
  match data.head? with
  | none => (data, true)
  | some b0 =>
    match crop_image_to_aoi tr data aoi b0.crs with
    | .error _ => (data, true)
    | .ok _ => ([], false)

/-- Abstract transform used for the C1 concrete instance: the output CRS
determines a distinct horizontal shift, so reprojections into different
CRSs are visibly different. -/
def c1Tr : String → String → ℚ × ℚ → ℚ × ℚ :=
  fun _ out p => if out = "epsg:32654" then (p.1 + 1, p.2) else (p.1 + 2, p.2)

/-- First band of the C1 instance, native CRS `epsg:32654`. -/
def c1BandA : RasterBand := ⟨"epsg:32654", ((-100, -100), (100, 100))⟩

/-- Second band of the C1 instance, native CRS `epsg:32655`, different
from the first band's. -/
def c1BandB : RasterBand := ⟨"epsg:32655", ((-100, -100), (100, 100))⟩

/-- Geographic AOI ring of the C1 instance ((lon, lat) vertices). -/
def c1Ring : List (ℚ × ℚ) := [(0, 0), (1, 0), (1, 1), (0, 1), (0, 0)]

/-- A baseline session state used by the concrete instances: selection
point and map center at (35, 139), empty click history, no stored AOI. -/
def s0 : SessionState :=
  { selected_lat := 35, selected_lon := 139, map_center_lat := 35, map_center_lon := 139,
    last_click_time := 0, last_click_pos := none, area_of_interest := none }

/-- The three opened bands of the C7 instance; their extents are far from
the C7 AOI. -/
def c7Bands : List RasterBand :=
  [⟨"epsg:32654", ((10, 10), (20, 20))⟩,
   ⟨"epsg:32654", ((10, 10), (20, 20))⟩,
   ⟨"epsg:32654", ((10, 10), (20, 20))⟩]

/-- Geographic AOI ring of the C7 instance; under the identity transform
its bounds are ((0,0),(1,1)), disjoint from every C7 band extent. -/
def c7Ring : List (ℚ × ℚ) := [(0, 0), (1, 0), (1, 1), (0, 1), (0, 0)]

/-- A unit-square geographic AOI ring ((lon, lat) vertices) used by
several concrete instances. -/
def ring01 : List (ℚ × ℚ) := [(0, 0), (1, 0), (1, 1), (0, 1), (0, 0)]

/-- A band whose extent misses the reprojection of `ring01` under the
identity transform, used by concrete error-path instances. -/
def bandFar : RasterBand := ⟨"epsg:32654", ((10, 10), (20, 20))⟩

/-- If a band and the polygon bounds are disjoint, the mask raises. -/
theorem maskCrop_error_of_disjoint (b : RasterBand) (poly : List (ℚ × ℚ))
    (hdis : rectsIntersect b.extent (ringBounds poly) = false) :
    maskCrop b poly = .error .emptyCrop := by
  simp [maskCrop, hdis]

/-- A successful mask keeps the band and records exactly the polygon it
was given. -/
theorem maskCrop_ok_inv (b : RasterBand) (poly : List (ℚ × ℚ)) (r : MaskResult)
    (h : maskCrop b poly = .ok r) : r.poly = poly ∧ r.band = b := by
  unfold maskCrop at h
  split at h
  · cases h
    exact ⟨rfl, rfl⟩
  · cases h

/-- On success, the mask loop returns one result per band, in order, each
carrying the single polygon it was called with. -/
theorem maskAll_ok_inv (poly : List (ℚ × ℚ)) :
    ∀ (data : List RasterBand) (res : List MaskResult),
      maskAll poly data = .ok res →
      res.map MaskResult.poly = data.map (fun _ => poly) ∧
      res.map MaskResult.band = data := by
  intro data
  induction data with
  | nil =>
    intro res h
    cases h
    exact ⟨rfl, rfl⟩
  | cons b rest ih =>
    intro res h
    unfold maskAll at h
    cases hc : maskCrop b poly with
    | error e =>
      rw [hc] at h
      cases h
    | ok r =>
      rw [hc] at h
      cases hr : maskAll poly rest with
      | error e =>
        rw [hr] at h
        cases h
      | ok rs =>
        rw [hr] at h
        cases h
        obtain ⟨hp, hbnd⟩ := maskCrop_ok_inv b poly r hc
        obtain ⟨ih1, ih2⟩ := ih rs hr
        simp [hp, hbnd, ih1, ih2]

/-- If some band fails to mask, the whole loop raises. -/
theorem maskAll_error_of_mem (poly : List (ℚ × ℚ)) (b : RasterBand)
    (hmask : maskCrop b poly = .error .emptyCrop) :
    ∀ (data : List RasterBand), b ∈ data → ∃ e, maskAll poly data = .error e := by
  intro data
  induction data with
  | nil =>
    intro hmem
    cases hmem
  | cons x rest ih =>
    intro hmem
    unfold maskAll
    cases hx : maskCrop x poly with
    | error e => exact ⟨e, rfl⟩
    | ok r =>
      rcases List.mem_cons.mp hmem with rfl | hbrest
      · rw [hx] at hmask
        cases hmask
      · obtain ⟨e, he⟩ := ih hbrest
        refine ⟨e, ?_⟩
        rw [he]

/-- A crop over bands one of which is disjoint from the reprojected
polygon raises the empty-crop error. -/
theorem crop_error_of_disjoint (tr : String → String → ℚ × ℚ → ℚ × ℚ)
    (data : List RasterBand) (aoi : List (ℚ × ℚ)) (target_crs : String) (b : RasterBand)
    (hmem : b ∈ data)
    (hdis : rectsIntersect b.extent (ringBounds (reprojRing tr target_crs aoi)) = false) :
    crop_image_to_aoi tr data aoi target_crs = .error .emptyCrop := by
  obtain ⟨e, he⟩ :=
    maskAll_error_of_mem (reprojRing tr target_crs aoi) b
      (maskCrop_error_of_disjoint b _ hdis) data hmem
  cases e
  unfold crop_image_to_aoi
  rw [he]

/-- On success, the crop's result list is one entry per band, in order,
every one masked with the single target-CRS polygon. -/
theorem crop_ok_inv (tr : String → String → ℚ × ℚ → ℚ × ℚ)
    (data : List RasterBand) (aoi : List (ℚ × ℚ)) (target_crs : String)
    (res : List MaskResult) (tfs : List ((ℚ × ℚ) × (ℚ × ℚ)))
    (h : crop_image_to_aoi tr data aoi target_crs = .ok (res, tfs)) :
    maskAll (reprojRing tr target_crs aoi) data = .ok res := by
  unfold crop_image_to_aoi at h
  cases hm : maskAll (reprojRing tr target_crs aoi) data with
  | error e =>
    rw [hm] at h
    cases h
  | ok results =>
    rw [hm] at h
    cases h
    rfl

/-- Flattening a list of singleton slices returns the original list. -/
theorem flattenSingletons : ∀ (l : List Grid), (l.map fun g => [g]).flatten = l
  | [] => rfl
  | g :: gs => by simp [flattenSingletons gs]

/-- A rectangular grid's shape is its row count and column count (with
zero columns reported when there are no rows). -/
theorem shape2_of_isRect (g : Grid) (r c : ℕ) (h : isRect g r c) :
    shape2 g = (r, if r = 0 then 0 else c) := by
  obtain ⟨hlen, hrow⟩ := h
  subst hlen
  cases g with
  | nil => simp [shape2]
  | cons row rest =>
    simp [shape2, hrow row (List.mem_cons_self row rest)]

/-- Stacking grids of a common shape along a new leading axis succeeds and
is the identity on the list of grids. -/
theorem npConcat0_ok_of_rect (g : Grid) (gs : List Grid) (r c : ℕ)
    (h : ∀ b ∈ g :: gs, isRect b r c) :
    npConcat0 ((g :: gs).map fun x => [x]) = .ok (g :: gs) := by
  have hall : ((gs.map fun x => [x]).all
      (fun y => decide (trailingShape y = trailingShape [g]))) = true := by
    rw [List.all_eq_true]
    intro y hy
    obtain ⟨b, hb, rfl⟩ := List.mem_map.mp hy
    have h1 : shape2 b = (r, if r = 0 then 0 else c) :=
      shape2_of_isRect b r c (h b (List.mem_cons_of_mem g hb))
    have h2 : shape2 g = (r, if r = 0 then 0 else c) :=
      shape2_of_isRect g r c (h g (List.mem_cons_self g gs))
    simp [trailingShape, shape2] at h1 h2 ⊢
    rw [h1.1, h1.2, h2.1, h2.2]
    exact ⟨rfl, rfl⟩
  rw [List.map_cons]
  unfold npConcat0
  simp only [hall, if_true]
  simp [flattenSingletons]

/-- Rolling the channel axis to the back of a channel stack whose first
slice is rectangular yields the index-transposed array. -/
theorem rollaxis03_of_rect (g : Grid) (gs : List Grid) (r c : ℕ) (h : isRect g r c) :
    rollaxis03 (g :: gs) =
      (List.range r).map fun i => (List.range c).map fun j =>
        (g :: gs).map fun ch => ((ch[i]?.getD [])[j]?.getD 0) := by
  obtain ⟨hlen, hrow⟩ := h
  subst hlen
  cases g with
  | nil => simp [rollaxis03]
  | cons row rest =>
    simp [rollaxis03, hrow row (List.mem_cons_self row rest)]

/-- On rectangular input, the composite is the explicit rows-by-cols-by-
channels array of scaled and clipped values. -/
theorem buildComposite_ok (g : Grid) (gs : List Grid) (r c : ℕ) (s : ℚ)
    (h : ∀ b ∈ g :: gs, isRect b r c) :
    buildComposite (g :: gs) s =
      .ok ((List.range r).map fun i => (List.range c).map fun j =>
        (g :: gs).map fun ch => min 1 (max 0 (((ch[i]?.getD [])[j]?.getD 0) / s))) := by
  unfold buildComposite
  rw [npConcat0_ok_of_rect g gs r c h]
  dsimp only
  rw [rollaxis03_of_rect g gs r c (h g (List.mem_cons_self g gs))]
  simp [List.map_map, Function.comp]

/-- C9: for every bounding box with `lat_min < lat_max` and
`lon_min < lon_max`, the AOI ring the code builds has exactly 5 vertices,
is closed (first vertex equals last vertex), its set of vertices is
exactly the four pairwise-distinct corners of the box, and every vertex
lies within the box bounds (the ring encloses the box). -/
theorem C9_bbox_ring (lat_min lat_max lon_min lon_max : ℚ)
    (hlat : lat_min < lat_max) (hlon : lon_min < lon_max) :
    (bboxRing lat_min lat_max lon_min lon_max).length = 5 ∧
    (bboxRing lat_min lat_max lon_min lon_max).head? = some (lon_min, lat_min) ∧
    (bboxRing lat_min lat_max lon_min lon_max).getLast? = some (lon_min, lat_min) ∧
    (bboxRing lat_min lat_max lon_min lon_max).toFinset =
      {((lon_min, lat_min) : ℚ × ℚ), (lon_max, lat_min), (lon_max, lat_max),
       (lon_min, lat_max)} ∧
    (((lon_min, lat_min) : ℚ × ℚ) ≠ (lon_max, lat_min) ∧
     ((lon_min, lat_min) : ℚ × ℚ) ≠ (lon_max, lat_max) ∧
     ((lon_min, lat_min) : ℚ × ℚ) ≠ (lon_min, lat_max) ∧
     ((lon_max, lat_min) : ℚ × ℚ) ≠ (lon_max, lat_max) ∧
     ((lon_max, lat_min) : ℚ × ℚ) ≠ (lon_min, lat_max) ∧
     ((lon_max, lat_max) : ℚ × ℚ) ≠ (lon_min, lat_max)) ∧
    ∀ p ∈ bboxRing lat_min lat_max lon_min lon_max,
      lon_min ≤ p.1 ∧ p.1 ≤ lon_max ∧ lat_min ≤ p.2 ∧ p.2 ≤ lat_max := by
  refine ⟨rfl, rfl, rfl, ?_, ?_, ?_⟩
  · ext x
    simp [bboxRing]
    tauto
  · refine ⟨?_, ?_, ?_, ?_, ?_, ?_⟩ <;>
      simp [Prod.ext_iff] <;>
      intro h <;>
      simp [h.symm, hlat.ne, hlon.ne, hlat.ne', hlon.ne'] at *
  · intro p hp
    simp [bboxRing] at hp
    rcases hp with rfl | rfl | rfl | rfl | rfl <;> simp [hlat.le, hlon.le]

/-- C9 witness at the concrete box lat 35..36, lon 139..140. -/
theorem C9_bbox_ring_witness :
    (35 : ℚ) < 36 ∧ (139 : ℚ) < 140 ∧
    ((bboxRing 35 36 139 140).length = 5 ∧
     (bboxRing 35 36 139 140).head? = some (139, 35) ∧
     (bboxRing 35 36 139 140).getLast? = some (139, 35) ∧
     (bboxRing 35 36 139 140).toFinset =
       {((139, 35) : ℚ × ℚ), (140, 35), (140, 36), (139, 36)} ∧
     (((139, 35) : ℚ × ℚ) ≠ (140, 35) ∧
      ((139, 35) : ℚ × ℚ) ≠ (140, 36) ∧
      ((139, 35) : ℚ × ℚ) ≠ (139, 36) ∧
      ((140, 35) : ℚ × ℚ) ≠ (140, 36) ∧
      ((140, 35) : ℚ × ℚ) ≠ (139, 36) ∧
      ((140, 36) : ℚ × ℚ) ≠ (139, 36)) ∧
     ∀ p ∈ bboxRing 35 36 139 140, 139 ≤ p.1 ∧ p.1 ≤ 140 ∧ 35 ≤ p.2 ∧ p.2 ≤ 36) :=
  ⟨by norm_num, by norm_num, C9_bbox_ring 35 36 139 140 (by norm_num) (by norm_num)⟩

/-- C10: if the start date is strictly after the end date, the pass stops
with an inline error before the time range is formed and the session state
is unchanged; if the two dates are equal, the range is formed with both
endpoints equal. -/
theorem C10_date_check :
    (∀ (s : SessionState) (a b : ℤ), a > b → datePass s a b = (s, none)) ∧
    (∀ (s : SessionState) (a : ℤ), datePass s a a = (s, some (a, a))) := by
  constructor
  · intro s a b h
    simp [datePass, h]
  · intro s a
    simp [datePass]

/-- C10 witness: start day 5 after end day 3 stops with state unchanged;
equal days 4 and 4 form the degenerate range (4, 4). -/
theorem C10_date_check_witness :
    (5 : ℤ) > 3 ∧ datePass s0 5 3 = (s0, none) ∧ datePass s0 4 4 = (s0, some (4, 4)) :=
  ⟨by norm_num, C10_date_check.1 s0 5 3 (by norm_num), C10_date_check.2 s0 4⟩

/-- C8 is false on the code: on the sidebar coordinate-input path a
malformed box (lat_min = 36 >= lat_max = 35) is stored as the area of
interest, and the search gate will issue a catalog search with it. -/
theorem C8_counterexample :
    (36 : ℚ) ≥ 35 ∧
    (coordInputPath s0 36 139 35 140).area_of_interest =
      some (bboxRing 36 35 139 140) ∧
    searchRequest (coordInputPath s0 36 139 35 140) =
      some (bboxRing 36 35 139 140) :=
  ⟨by norm_num, rfl, rfl⟩

/-- C8 (amended): on the map-tab direct coordinate-entry path a malformed
box is rejected inline (the stored AOI is cleared, so no search can use
it), but the sidebar coordinate-input path performs no validation: it
stores the ring built from the malformed box and the search gate accepts
it. -/
theorem C8_validation (s : SessionState) (lat_min lon_min lat_max lon_max : ℚ)
    (h : lat_min ≥ lat_max ∨ lon_min ≥ lon_max) :
    (mapDirectInputPath s lat_min lon_min lat_max lon_max).area_of_interest = none ∧
    searchRequest (mapDirectInputPath s lat_min lon_min lat_max lon_max) = none ∧
    (coordInputPath s lat_min lon_min lat_max lon_max).area_of_interest =
      some (bboxRing lat_min lat_max lon_min lon_max) ∧
    searchRequest (coordInputPath s lat_min lon_min lat_max lon_max) =
      some (bboxRing lat_min lat_max lon_min lon_max) := by
  refine ⟨?_, ?_, rfl, rfl⟩ <;> simp [mapDirectInputPath, searchRequest, h]

/-- C8 witness at the malformed box lat 36..35, lon 139..140. -/
theorem C8_validation_witness :
    ((36 : ℚ) ≥ 35 ∨ (139 : ℚ) ≥ 140) ∧
    ((mapDirectInputPath s0 36 139 35 140).area_of_interest = none ∧
     searchRequest (mapDirectInputPath s0 36 139 35 140) = none ∧
     (coordInputPath s0 36 139 35 140).area_of_interest =
       some (bboxRing 36 35 139 140) ∧
     searchRequest (coordInputPath s0 36 139 35 140) =
       some (bboxRing 36 35 139 140)) :=
  ⟨Or.inl (by norm_num), C8_validation s0 36 139 35 140 (Or.inl (by norm_num))⟩

/-- C2 is false on the code at the exact proximity boundary: with history
at position (0, 139) and time 0, a click at latitude 0.01, longitude 139,
time 0.3 has per-axis distances (0.01, 0) — neither exceeds 0.01 — and is
within the 1-second window, so the claim classifies it as a double-click;
the code's strict comparison `abs(...) < 0.01` fails and classifies it as
a single-click. -/
theorem C2_counterexample :
    isDoubleClick { s0 with last_click_pos := some (0, 139) } (1/100) 139 (3/10) = false ∧
    ¬ spec_isSingleClick { s0 with last_click_pos := some (0, 139) } (1/100) 139 (3/10) := by
  constructor
  · norm_num [isDoubleClick, s0, abs_sub_lt_iff, le_abs_self]
  · rintro (h | h | ⟨p, hp, h⟩)
    · simp [s0] at h
    · norm_num [s0] at h
    · simp [s0] at hp
      subst hp
      norm_num [abs_of_nonneg] at h

/-- C2 (amended): the code classifies a click as a single-click exactly
when the history is empty, or the time difference is at least 1.0 second,
or the per-axis distance is at least 0.01 degrees on latitude or on
longitude (boundary values count as single, not double). -/
theorem C2_classification (s : SessionState) (lat lon t : ℚ) :
    isDoubleClick s lat lon t = false ↔
      s.last_click_pos = none ∨
      ∃ p, s.last_click_pos = some p ∧
        (1 ≤ t - s.last_click_time ∨ 1/100 ≤ |lat - p.1| ∨ 1/100 ≤ |lon - p.2|) := by
  cases hp : s.last_click_pos with
  | none => simp [isDoubleClick, hp]
  | some p =>
    have hb : isDoubleClick s lat lon t = true ↔
        (t - s.last_click_time < 1 ∧ |lat - p.1| < 1/100 ∧ |lon - p.2| < 1/100) := by
      simp [isDoubleClick, hp, and_assoc]
    constructor
    · intro hfalse
      refine Or.inr ⟨p, rfl, ?_⟩
      have hnot : ¬(t - s.last_click_time < 1 ∧ |lat - p.1| < 1/100 ∧ |lon - p.2| < 1/100) := by
        intro hcon
        have htrue := hb.mpr hcon
        rw [hfalse] at htrue
        exact Bool.noConfusion htrue
      rcases not_and_or.mp hnot with h | h2
      · exact Or.inl (not_lt.mp h)
      · rcases not_and_or.mp h2 with h | h
        · exact Or.inr (Or.inl (not_lt.mp h))
        · exact Or.inr (Or.inr (not_lt.mp h))
    · rintro (hnone | ⟨q, hq, hdisj⟩)
      · exact absurd hnone (by simp)
      · injection hq with hq'
        subst hq'
        cases hB : isDoubleClick s lat lon t
        · rfl
        · exfalso
          rcases hb.mp hB with ⟨h1, h2, h3⟩
          rcases hdisj with h | h | h
          · exact absurd h1 (not_lt.mpr h)
          · exact absurd h2 (not_lt.mpr h)
          · exact absurd h3 (not_lt.mpr h)

/-- C3's history clause fails on the code: a single click at (36, 140) at
time 5, with the selection point at (35, 139), updates the selection point
and the map center together, but `st.rerun()` halts the pass before the
click history is recorded — the history stays empty instead of becoming
(5, (36, 140)). -/
theorem C3_single_click_history_lost :
    isDoubleClick s0 36 140 5 = false ∧
    handleClick s0 36 140 5 =
      { s0 with selected_lat := 36, selected_lon := 140,
                map_center_lat := 36, map_center_lon := 140 } ∧
    (handleClick s0 36 140 5).last_click_pos = none ∧
    (handleClick s0 36 140 5).last_click_time = 0 := by
  refine ⟨?_, ?_, ?_, ?_⟩ <;>
    norm_num [handleClick, isDoubleClick, s0, abs_sub_lt_iff, le_abs_self]

/-- C4: a click the code classifies as a double-click moves only the map
center (the selection point is untouched), resets the click history to
empty, and any click arriving immediately afterwards is evaluated against
the empty history and therefore not classified as a double-click. -/
theorem C4_double_click_effect (s : SessionState) (lat lon t lat' lon' t' : ℚ)
    (h : isDoubleClick s lat lon t = true) :
    handleClick s lat lon t =
      { s with map_center_lat := lat, map_center_lon := lon,
               last_click_time := 0, last_click_pos := none } ∧
    isDoubleClick (handleClick s lat lon t) lat' lon' t' = false := by
  have h1 : handleClick s lat lon t =
      { s with map_center_lat := lat, map_center_lon := lon,
               last_click_time := 0, last_click_pos := none } := by
    simp [handleClick, h]
  refine ⟨h1, ?_⟩
  rw [h1]
  simp [isDoubleClick]

/-- C4 witness: after a click recorded at (35, 139) at time 0, a second
click at the same position at time 0.3 is a double-click; its effect and
the single-click classification of a third click at time 0.4 follow. -/
theorem C4_double_click_effect_witness :
    isDoubleClick { s0 with last_click_pos := some (35, 139) } 35 139 (3/10) = true ∧
    (handleClick { s0 with last_click_pos := some (35, 139) } 35 139 (3/10) =
      { { s0 with last_click_pos := some (35, 139) } with
          map_center_lat := 35, map_center_lon := 139,
          last_click_time := 0, last_click_pos := none } ∧
     isDoubleClick
       (handleClick { s0 with last_click_pos := some (35, 139) } 35 139 (3/10))
       35 139 (2/5) = false) :=
  ⟨by norm_num [isDoubleClick, s0, abs_sub_lt_iff, le_abs_self],
   C4_double_click_effect { s0 with last_click_pos := some (35, 139) }
     35 139 (3/10) 35 139 (2/5)
     (by norm_num [isDoubleClick, s0, abs_sub_lt_iff, le_abs_self])⟩

/-- C1 is false on the code: with two bands of differing native CRS
(`epsg:32654` and `epsg:32655`) and a transform under which the two CRSs
give different reprojections, `crop_image_to_aoi` masks BOTH bands with
the ring reprojected into the single target CRS `epsg:32654`; in
particular the second band is masked with a polygon that differs from the
ring reprojected into that band's own CRS. -/
theorem C1_counterexample :
    c1BandA.crs = "epsg:32654" ∧ c1BandB.crs = "epsg:32655" ∧ c1BandA.crs ≠ c1BandB.crs ∧
    (crop_image_to_aoi c1Tr [c1BandA, c1BandB] c1Ring "epsg:32654").map
        (fun pr => pr.1.map MaskResult.poly) =
      .ok [reprojRing c1Tr "epsg:32654" c1Ring, reprojRing c1Tr "epsg:32654" c1Ring] ∧
    reprojRing c1Tr "epsg:32654" c1Ring ≠ reprojRing c1Tr c1BandB.crs c1Ring := by
  have hff : ("epsg:32655" = "epsg:32654") = False := by simp
  refine ⟨rfl, rfl, by simp [c1BandA, c1BandB], ?_, ?_⟩
  · norm_num [crop_image_to_aoi, maskAll, maskCrop, reprojRing, ringBounds, rectsIntersect,
      cropWindow, c1Tr, c1BandA, c1BandB, c1Ring, in_proj, min_def, max_def, Except.map]
  · norm_num [reprojRing, c1Tr, c1BandB, c1Ring, in_proj, hff]

/-- C1 (amended): `crop_image_to_aoi` reprojects the AOI ring once, into
the single target CRS it is given (at the call site, the first band's
CRS), and on success every band — whatever its own CRS — has been masked
with that same target-CRS polygon. -/
theorem C1_single_target_crs (tr : String → String → ℚ × ℚ → ℚ × ℚ)
    (data : List RasterBand) (aoi : List (ℚ × ℚ)) (target_crs : String)
    (res : List MaskResult) (tfs : List ((ℚ × ℚ) × (ℚ × ℚ)))
    (h : crop_image_to_aoi tr data aoi target_crs = .ok (res, tfs)) :
    res.map MaskResult.poly = data.map (fun _ => reprojRing tr target_crs aoi) ∧
    res.map MaskResult.band = data :=
  maskAll_ok_inv (reprojRing tr target_crs aoi) data res
    (crop_ok_inv tr data aoi target_crs res tfs h)

/-- C1 witness: the amended statement applied to the two-band instance of
the counterexample, whose crop succeeds. -/
theorem C1_single_target_crs_witness :
    crop_image_to_aoi c1Tr [c1BandA, c1BandB] c1Ring "epsg:32654" =
      .ok ([⟨c1BandA, [(1, 0), (1, 1), (2, 1), (2, 0), (1, 0)], ((1, 0), (2, 1))⟩,
            ⟨c1BandB, [(1, 0), (1, 1), (2, 1), (2, 0), (1, 0)], ((1, 0), (2, 1))⟩],
           [((1, 0), (2, 1)), ((1, 0), (2, 1))]) ∧
    ([(⟨c1BandA, [(1, 0), (1, 1), (2, 1), (2, 0), (1, 0)], ((1, 0), (2, 1))⟩ : MaskResult),
      ⟨c1BandB, [(1, 0), (1, 1), (2, 1), (2, 0), (1, 0)], ((1, 0), (2, 1))⟩].map
        MaskResult.poly =
      [c1BandA, c1BandB].map (fun _ => reprojRing c1Tr "epsg:32654" c1Ring) ∧
     [(⟨c1BandA, [(1, 0), (1, 1), (2, 1), (2, 0), (1, 0)], ((1, 0), (2, 1))⟩ : MaskResult),
      ⟨c1BandB, [(1, 0), (1, 1), (2, 1), (2, 0), (1, 0)], ((1, 0), (2, 1))⟩].map
        MaskResult.band = [c1BandA, c1BandB]) :=
  ⟨by norm_num [crop_image_to_aoi, maskAll, maskCrop, reprojRing, ringBounds, rectsIntersect,
      cropWindow, c1Tr, c1BandA, c1BandB, c1Ring, in_proj, min_def, max_def],
   C1_single_target_crs c1Tr [c1BandA, c1BandB] c1Ring "epsg:32654"
     [⟨c1BandA, [(1, 0), (1, 1), (2, 1), (2, 0), (1, 0)], ((1, 0), (2, 1))⟩,
      ⟨c1BandB, [(1, 0), (1, 1), (2, 1), (2, 0), (1, 0)], ((1, 0), (2, 1))⟩]
     [((1, 0), (2, 1)), ((1, 0), (2, 1))]
     (by norm_num [crop_image_to_aoi, maskAll, maskCrop, reprojRing, ringBounds, rectsIntersect,
        cropWindow, c1Tr, c1BandA, c1BandB, c1Ring, in_proj, min_def, max_def])⟩

/-- C6's empty-input clause is false on the code: with an empty band list
`crop_image_to_aoi` silently returns empty output sequences instead of
failing with an invalid-input error. -/
theorem C6_counterexample :
    crop_image_to_aoi (fun _ _ p => p) [] ring01 "epsg:32654" = .ok ([], []) := rfl

/-- C6 (amended): when the reprojected polygon does not intersect some
band's extent the crop fails with the empty-crop error (it never silently
returns an empty grid), but for an empty band sequence it returns empty
output sequences without any error. -/
theorem C6_crop_errors :
    (∀ (tr : String → String → ℚ × ℚ → ℚ × ℚ) (data : List RasterBand)
        (aoi : List (ℚ × ℚ)) (target_crs : String) (b : RasterBand),
        b ∈ data →
        rectsIntersect b.extent (ringBounds (reprojRing tr target_crs aoi)) = false →
        crop_image_to_aoi tr data aoi target_crs = .error .emptyCrop) ∧
    (∀ (tr : String → String → ℚ × ℚ → ℚ × ℚ) (aoi : List (ℚ × ℚ)) (target_crs : String),
        crop_image_to_aoi tr ([] : List RasterBand) aoi target_crs = .ok ([], [])) :=
  ⟨fun tr data aoi target_crs b hmem hdis =>
    crop_error_of_disjoint tr data aoi target_crs b hmem hdis,
   fun _ _ _ => rfl⟩

/-- C6 witness: a single band whose extent misses the reprojected unit
square makes the crop fail with the empty-crop error. -/
theorem C6_crop_errors_witness :
    bandFar ∈ [bandFar] ∧
    rectsIntersect bandFar.extent
      (ringBounds (reprojRing (fun _ _ p => p) "epsg:32654" ring01)) = false ∧
    crop_image_to_aoi (fun _ _ p => p) [bandFar] ring01 "epsg:32654" =
      .error .emptyCrop :=
  ⟨by simp,
   by norm_num [rectsIntersect, ringBounds, reprojRing, bandFar, ring01, in_proj,
      min_def, max_def],
   C6_crop_errors.1 (fun _ _ p => p) [bandFar] ring01 "epsg:32654" bandFar (by simp)
     (by norm_num [rectsIntersect, ringBounds, reprojRing, bandFar, ring01, in_proj,
        min_def, max_def])⟩

/-- C7 is false on the code at this input: the AOI is disjoint from every
band extent, so the crop raises; the exception jumps to the handler before
the cleanup loop, and the RGB generation pass terminates with all three
opened bands still open. -/
theorem C7_bands_left_open :
    generateRGBPass (fun _ _ p => p) c7Bands c7Ring = (c7Bands, true) ∧
    c7Bands.length = 3 ∧ c7Bands ≠ [] := by
  have hdis : rectsIntersect (⟨"epsg:32654", ((10, 10), (20, 20))⟩ : RasterBand).extent
      (ringBounds (reprojRing (fun _ _ p => p) "epsg:32654" c7Ring)) = false := by
    norm_num [rectsIntersect, ringBounds, reprojRing, c7Ring, in_proj, min_def, max_def]
  have hcrop : crop_image_to_aoi (fun _ _ p => p) c7Bands c7Ring "epsg:32654" =
      .error .emptyCrop :=
    crop_error_of_disjoint (fun _ _ p => p) c7Bands c7Ring "epsg:32654"
      ⟨"epsg:32654", ((10, 10), (20, 20))⟩ (by simp [c7Bands]) hdis
  refine ⟨?_, rfl, by simp [c7Bands]⟩
  have hpass : generateRGBPass (fun _ _ p => p) c7Bands c7Ring =
      match crop_image_to_aoi (fun _ _ p => p) c7Bands c7Ring "epsg:32654" with
      | .error _ => (c7Bands, true)
      | .ok _ => ([], false) := rfl
  rw [hpass, hcrop]

/-- C5: for every non-empty sequence of single-band rectangular grids of
identical dimensions and positive scale factor, the composite succeeds
and is the rows-by-cols-by-channels array whose channels appear in input
order (entry k of each cell comes from input grid k) with every value the
input value divided by the scale factor and clipped, hence within [0, 1];
and whenever two input grids disagree in shape, the composite fails with
the dimension-mismatch error. -/
theorem C5_buildComposite :
    (∀ (bands : List Grid) (g : Grid) (gs : List Grid) (r c : ℕ) (s : ℚ),
        bands = g :: gs → (∀ b ∈ bands, isRect b r c) → 0 < s →
        ∃ out, buildComposite bands s = .ok out ∧
          out = ((List.range r).map fun i => (List.range c).map fun j =>
            bands.map fun ch => min 1 (max 0 (((ch[i]?.getD [])[j]?.getD 0) / s))) ∧
          out.length = r ∧
          (∀ row ∈ out, row.length = c) ∧
          (∀ row ∈ out, ∀ cell ∈ row, cell.length = bands.length) ∧
          (∀ row ∈ out, ∀ cell ∈ row, ∀ v ∈ cell, 0 ≤ v ∧ v ≤ 1)) ∧
    (∀ (bands : List Grid) (s : ℚ) (b1 b2 : Grid), b1 ∈ bands → b2 ∈ bands →
        shape2 b1 ≠ shape2 b2 →
        buildComposite bands s = .error .dimensionMismatch) := by
  constructor
  · intro bands g gs r c s hb h _
    subst hb
    refine ⟨_, buildComposite_ok g gs r c s h, rfl, ?_, ?_, ?_, ?_⟩
    · simp
    · intro row hrow
      obtain ⟨i, _, rfl⟩ := List.mem_map.mp hrow
      simp
    · intro row hrow cell hcell
      obtain ⟨i, _, rfl⟩ := List.mem_map.mp hrow
      obtain ⟨j, _, rfl⟩ := List.mem_map.mp hcell
      simp
    · intro row hrow cell hcell v hv
      obtain ⟨i, _, rfl⟩ := List.mem_map.mp hrow
      obtain ⟨j, _, rfl⟩ := List.mem_map.mp hcell
      obtain ⟨ch, _, rfl⟩ := List.mem_map.mp hv
      exact ⟨le_min (by norm_num) (le_max_left 0 _), min_le_left 1 _⟩
  · intro bands s b1 b2 hb1 hb2 hneq
    cases bands with
    | nil => cases hb1
    | cons hd t =>
      obtain ⟨b, hbmem, hbneq⟩ : ∃ b ∈ hd :: t, shape2 b ≠ shape2 hd := by
        by_cases hcase : shape2 b1 = shape2 hd
        · exact ⟨b2, hb2, fun hh => hneq (hcase.trans hh.symm)⟩
        · exact ⟨b1, hb1, hcase⟩
      rcases List.mem_cons.mp hbmem with rfl | hbt
      · exact absurd rfl hbneq
      · have hall : ((t.map fun x => [x]).all
            (fun y => decide (trailingShape y = trailingShape [hd]))) = false := by
          cases hval : (t.map fun x => [x]).all
              (fun y => decide (trailingShape y = trailingShape [hd])) with
          | false => rfl
          | true =>
            exfalso
            have hmem2 : [b] ∈ t.map fun x => [x] := List.mem_map_of_mem _ hbt
            have hdec := List.all_eq_true.mp hval [b] hmem2
            exact hbneq (of_decide_eq_true hdec)
        unfold buildComposite
        rw [List.map_cons]
        unfold npConcat0
        simp only [hall, Bool.false_eq_true, if_false]

/-- C5 witness: three 2-by-2 grids compose into a 2-by-2-by-3 array of
clipped scaled values; adding a 1-by-2 grid triggers the
dimension-mismatch failure. -/
theorem C5_buildComposite_witness :
    (([[(3 : ℚ), 9], [0, 6]] : Grid) :: ([[[1, 2], [3, 4]], [[5, 6], [7, 8]]] : List Grid) =
        [[[3, 9], [0, 6]], [[1, 2], [3, 4]], [[5, 6], [7, 8]]] ∧
      (∀ b ∈ ([[[(3 : ℚ), 9], [0, 6]], [[1, 2], [3, 4]], [[5, 6], [7, 8]]] : List Grid),
        isRect b 2 2) ∧
      (0 : ℚ) < 5000 ∧
      ∃ out,
        buildComposite ([[[(3 : ℚ), 9], [0, 6]], [[1, 2], [3, 4]], [[5, 6], [7, 8]]]) 5000 =
          .ok out ∧
        out = ((List.range 2).map fun i => (List.range 2).map fun j =>
          ([[[(3 : ℚ), 9], [0, 6]], [[1, 2], [3, 4]], [[5, 6], [7, 8]]] : List Grid).map
            fun ch => min 1 (max 0 (((ch[i]?.getD [])[j]?.getD 0) / 5000))) ∧
        out.length = 2 ∧
        (∀ row ∈ out, row.length = 2) ∧
        (∀ row ∈ out, ∀ cell ∈ row, cell.length =
          ([[[(3 : ℚ), 9], [0, 6]], [[1, 2], [3, 4]], [[5, 6], [7, 8]]] : List Grid).length) ∧
        (∀ row ∈ out, ∀ cell ∈ row, ∀ v ∈ cell, 0 ≤ v ∧ v ≤ 1)) ∧
    (([[(1 : ℚ), 2], [3, 4]] : Grid) ∈ ([[[1, 2], [3, 4]], [[1, 2]]] : List Grid) ∧
      ([[(1 : ℚ), 2]] : Grid) ∈ ([[[1, 2], [3, 4]], [[1, 2]]] : List Grid) ∧
      shape2 ([[(1 : ℚ), 2], [3, 4]] : Grid) ≠ shape2 ([[(1 : ℚ), 2]] : Grid) ∧
      buildComposite ([[[(1 : ℚ), 2], [3, 4]], [[1, 2]]]) 5000 = .error .dimensionMismatch) :=
  ⟨⟨rfl,
    by
      intro b hb
      simp only [List.mem_cons, List.not_mem_nil, or_false] at hb
      rcases hb with rfl | rfl | rfl <;> exact ⟨rfl, by intro row hrow; simp at hrow; rcases hrow with rfl | rfl <;> rfl⟩,
    by norm_num,
    C5_buildComposite.1 _ [[3, 9], [0, 6]] [[[1, 2], [3, 4]], [[5, 6], [7, 8]]] 2 2 5000 rfl
      (by
        intro b hb
        simp only [List.mem_cons, List.not_mem_nil, or_false] at hb
        rcases hb with rfl | rfl | rfl <;>
          exact ⟨rfl, by intro row hrow; simp at hrow; rcases hrow with rfl | rfl <;> rfl⟩)
      (by norm_num)⟩,
   ⟨by simp, by simp,
    by simp [shape2],
    C5_buildComposite.2 [[[1, 2], [3, 4]], [[1, 2]]] 5000 [[1, 2], [3, 4]] [[1, 2]]
      (by simp) (by simp) (by simp [shape2])⟩⟩

end SatApp
